import Mathlib

/-!
Verification of the conversion dispatcher of a LibreOffice-based HTTP
conversion service.  The Rust sources are shallowly embedded: bytes are
modelled as natural numbers below 256, strings as Lean strings, the
filesystem and the subprocess as an explicit environment record, and the
side effects of one conversion request as an explicit trace of events.
-/

/-- Family tag returned by the magic-number classifier
(enum FileType in detect_filetype.rs). -/
inductive FileType where
  | Word
  | PowerPoint
  | Excel
  | Pdf
  | RichText
  | PlainText
  | OpenDocument
  | Unknown
deriving DecidableEq, Repr

/-- ASCII byte sequence of a Lean string; used to translate the Rust byte-string
literals (b"...") and the ASCII search patterns of the classifier. -/
def asciiBytes (s : String) : List Nat :=
  s.data.map Char.toNat

/-- Contiguous-subsequence search over lists, by scanning suffixes. -/
def containsSeq {α : Type} [BEq α] (pat : List α) : List α → Bool
  | [] => pat.isEmpty
  | h :: t => pat.isPrefixOf (h :: t) || containsSeq pat t

/-- Substring search for an ASCII pattern over raw bytes.  The Rust code runs
String::from_utf8_lossy over the prefix and then str::contains; for a pure
ASCII pattern this is equivalent to contiguous byte search, because every
ASCII byte decodes to itself (in valid and in lossy decoding alike) and every
non-ASCII byte or replacement run contributes at least one non-pattern
character between ASCII characters. -/
def bytesContain (content : List Nat) (pat : String) : Bool :=
  containsSeq (asciiBytes pat) content

/-- Byte predicate of is_likely_text in detect_filetype.rs:
b.is_ascii_graphic() (0x21..=0x7e) or b.is_ascii_whitespace()
(space, tab, line feed, form feed, carriage return) or b >= 0x80. -/
def isTextByte (b : Nat) : Bool :=
  (0x21 ≤ b && b ≤ 0x7e)
    || b == 0x20 || b == 0x09 || b == 0x0a || b == 0x0c || b == 0x0d
    || 0x80 ≤ b

/-- Count of text-like bytes among the first 256, as in is_likely_text. -/
def printableCount (content : List Nat) : Nat :=
  ((content.take 256).filter isTextByte).length

/-- Number of bytes is_likely_text inspects: total_checked = len.min(256). -/
def checkedCount (content : List Nat) : Nat :=
  min content.length 256

/-- Heuristic is_likely_text of detect_filetype.rs.  The Rust code compares
(printable_count as f32 / total_checked as f32) > 0.9.  For counts bounded by
256 this f32 comparison is exact: both counts convert exactly, the rounded
quotient compares to the rounded literal 0.9f32 the same way the exact
rational printable/total compares to 9/10 (the nearest ratio p/t with t ≤ 256
is more than 3e-4 away from 9/10, far beyond the rounding error), so the test
is faithfully rendered as 9 * total < 10 * printable. -/
def is_likely_text (content : List Nat) : Bool :=
  if checkedCount content == 0 then false
  else 9 * checkedCount content < 10 * printableCount content

/-- Translation of detect_zip_based_format in detect_filetype.rs, applied to
the at-most-1024-byte prefix. -/
def detect_zip_based_format (content : List Nat) : FileType :=
  if bytesContain content "word/"
      || bytesContain content "application/vnd.openxmlformats-officedocument.wordprocessingml" then
    FileType.Word
  else if bytesContain content "ppt/"
      || bytesContain content "application/vnd.openxmlformats-officedocument.presentationml" then
    FileType.PowerPoint
  else if bytesContain content "xl/"
      || bytesContain content "application/vnd.openxmlformats-officedocument.spreadsheetml" then
    FileType.Excel
  else if bytesContain content "application/vnd.oasis.opendocument" then
    FileType.OpenDocument
  else if bytesContain content "[Content_Types].xml" then
    FileType.Word
  else
    FileType.Unknown

/-- Translation of detect_ole2_format in detect_filetype.rs, applied to the
at-most-1024-byte prefix.  Unrecognized OLE2 content defaults to Word. -/
def detect_ole2_format (content : List Nat) : FileType :=
  if bytesContain content "Microsoft Office Word" || bytesContain content "Word.Document" then
    FileType.Word
  else if bytesContain content "Microsoft Office PowerPoint"
      || bytesContain content "PowerPoint Document" then
    FileType.PowerPoint
  else if bytesContain content "Microsoft Excel" || bytesContain content "Workbook" then
    FileType.Excel
  else
    FileType.Word

/-- Translation of detect_openoffice_file_type in detect_filetype.rs.
content.get(..1024).unwrap_or(content) is rendered as List.take 1024. -/
def detect_openoffice_file_type (content : List Nat) : FileType :=
  if content.length == 0 then FileType.Unknown
  else if (asciiBytes "%PDF-").isPrefixOf content then FileType.Pdf
  else if (asciiBytes "\x7b\\rtf1").isPrefixOf content then FileType.RichText
  else
    let contentSlice := content.take 1024
    if ([0x50, 0x4b, 0x03, 0x04].isPrefixOf content)
        || ([0x50, 0x4b, 0x05, 0x06].isPrefixOf content) then
      detect_zip_based_format contentSlice
    else if [0xd0, 0xcf, 0x11, 0xe0, 0xa1, 0xb1, 0x1a, 0xe1].isPrefixOf content then
      detect_ole2_format contentSlice
    else if is_likely_text contentSlice then
      FileType.PlainText
    else
      FileType.Unknown

/-- Translation of detect_file_type_from_bytes in detect_filetype.rs. -/
def detect_file_type_from_bytes (bytes : List Nat) : FileType :=
  detect_openoffice_file_type bytes

/-- Error taxonomy of error.rs (enum LibreOfficeError).  The Io variant
carries the io::Error display text as a plain string. -/
inductive LibreOfficeError where
  | IoErr (msg : String)
  | Timeout
  | ConversionFailed (msg : String)
  | OutputNotFound
  | CorruptedInput (msg : String)
  | UnsupportedConversion (fromFmt toFmt : String)
  | PasswordProtected
  | EmptyOrInvalidInput
deriving DecidableEq, Repr

/-- Display text of each error, from the thiserror #[error("...")] attributes
in error.rs. -/
def errorDisplay : LibreOfficeError → String
  | .IoErr m => "IO error: " ++ m
  | .Timeout => "Conversion timeout"
  | .ConversionFailed m => "Conversion failed: " ++ m
  | .OutputNotFound => "Output file not found after conversion"
  | .CorruptedInput m => "Corrupted or invalid input file: " ++ m
  | .UnsupportedConversion f t => "Unsupported format conversion from " ++ f ++ " to " ++ t
  | .PasswordProtected => "File is password protected"
  | .EmptyOrInvalidInput => "Input file is empty or invalid"

/-- ASCII lowercasing of a string, one character at a time.  Rust's
str::to_lowercase agrees with this character-wise map on every character
whose Unicode lowercase form is that single mapped character; the classifier
patterns themselves are plain ASCII. -/
def toLowerStr (s : String) : String :=
  ⟨s.data.map Char.toLower⟩

/-- Substring test str::contains rendered over the character lists. -/
def strContains (hay pat : String) : Bool :=
  containsSeq pat.data hay.data

/-- Translation of analyze_libreoffice_error in libreoffice.rs: classify the
lowercased concatenation of stderr and stdout by a first-match cascade. -/
def analyze_libreoffice_error (stderr stdout fromFmt toFmt : String) : LibreOfficeError :=
  let combined := toLowerStr (stderr ++ " " ++ stdout)
  if strContains combined "password" || strContains combined "encrypted" then
    LibreOfficeError.PasswordProtected
  else if strContains combined "format" && strContains combined "not supported" then
    LibreOfficeError.UnsupportedConversion fromFmt toFmt
  else if strContains combined "corrupt" || strContains combined "damaged"
      || strContains combined "invalid" || strContains combined "parse error"
      || strContains combined "bad file" then
    LibreOfficeError.CorruptedInput "File appears to be corrupted or in an invalid format"
  else if strContains combined "empty" || strContains combined "no content"
      || strContains combined "zero bytes" then
    LibreOfficeError.EmptyOrInvalidInput
  else if strContains combined "filter" && strContains combined "not found" then
    LibreOfficeError.UnsupportedConversion fromFmt toFmt
  else
    LibreOfficeError.ConversionFailed
      ("LibreOffice conversion failed. stderr: " ++ stderr ++ ", stdout: " ++ stdout)

/-- Statement of claim C2, written independently from the spec's rule table:
case-insensitive substring rules over stderr + " " + stdout, first match
wins.  Each row of the table is one rule. -/
def errorClassifierSpec (stderr stdout fromFmt toFmt : String) : LibreOfficeError :=
  let c := toLowerStr (stderr ++ " " ++ stdout)
  if strContains c "password" || strContains c "encrypted" then
    LibreOfficeError.PasswordProtected
  else if strContains c "format" && strContains c "not supported" then
    LibreOfficeError.UnsupportedConversion fromFmt toFmt
  else if strContains c "corrupt" || strContains c "damaged" || strContains c "invalid"
      || strContains c "parse error" || strContains c "bad file" then
    LibreOfficeError.CorruptedInput "File appears to be corrupted or in an invalid format"
  else if strContains c "empty" || strContains c "no content" || strContains c "zero bytes" then
    LibreOfficeError.EmptyOrInvalidInput
  else if strContains c "filter" && strContains c "not found" then
    LibreOfficeError.UnsupportedConversion fromFmt toFmt
  else
    LibreOfficeError.ConversionFailed
      ("LibreOffice conversion failed. stderr: " ++ stderr ++ ", stdout: " ++ stdout)

/-- Translation of analyze_missing_output_error in libreoffice.rs.  The
argument is the result of std::fs::read_dir over the output directory:
some listing of file names when the directory could be read, none when the
read failed. -/
def analyze_missing_output_error (listing : Option (List String)) (fromFmt toFmt : String) :
    LibreOfficeError :=
  match listing with
  | some files =>
    if files.isEmpty then
      LibreOfficeError.CorruptedInput
        "No output files were generated - input file may be corrupted or invalid"
    else
      LibreOfficeError.UnsupportedConversion fromFmt toFmt
  | none => LibreOfficeError.OutputNotFound

/-- Translation of create_conversion_error_response in routes/convert.rs: the
HTTP response modelled as the pair of status code and plain-text body. -/
def create_conversion_error_response (e : LibreOfficeError) : Nat × String :=
  match e with
  | .Timeout => (408, "Conversion timed out")
  | .CorruptedInput m =>
    (400, "Invalid or corrupted input file: " ++ errorDisplay (.CorruptedInput m))
  | .UnsupportedConversion f t => (400, "Unsupported conversion from " ++ f ++ " to " ++ t)
  | .PasswordProtected => (400, "File is password protected")
  | .EmptyOrInvalidInput => (400, "Input file is empty or invalid")
  | e => (500, "Conversion failed: " ++ errorDisplay e)

/-- Translation of the From LibreOfficeError for Response impl in error.rs,
which repeats the same mapping. -/
def libreOfficeErrorResponse (e : LibreOfficeError) : Nat × String :=
  match e with
  | .Timeout => (408, "Conversion timed out")
  | .CorruptedInput m =>
    (400, "Invalid or corrupted input file: " ++ errorDisplay (.CorruptedInput m))
  | .UnsupportedConversion f t => (400, "Unsupported conversion from " ++ f ++ " to " ++ t)
  | .PasswordProtected => (400, "File is password protected")
  | .EmptyOrInvalidInput => (400, "Input file is empty or invalid")
  | e => (500, "Conversion failed: " ++ errorDisplay e)

/-- Statement of claim C6's status table, written from the spec:
Timeout 408; CorruptedInput, UnsupportedConversion, PasswordProtected and
EmptyOrInvalidInput 400; any other error 500. -/
def claimStatusTable : LibreOfficeError → Nat
  | .Timeout => 408
  | .CorruptedInput _ => 400
  | .UnsupportedConversion _ _ => 400
  | .PasswordProtected => 400
  | .EmptyOrInvalidInput => 400
  | _ => 500

/-- Splitting a character list at its last dot: some (before, after) when a
dot occurs, none otherwise. -/
def splitLastDot : List Char → Option (List Char × List Char)
  | [] => none
  | c :: rest =>
    match splitLastDot rest with
    | some (b, a) => some (c :: b, a)
    | none => if c == '.' then some ([], rest) else none

/-- Rendering of Rust's std::path::Path::extension for a plain file name:
none without an embedded dot, none for a leading-dot name with no further
dot, otherwise the portion after the final dot. -/
def pathExtension (name : String) : Option String :=
  match splitLastDot name.data with
  | none => none
  | some (before, after) => if before.isEmpty then none else some ⟨after⟩

/-- Contents of the per-request temp directory, as (file name, bytes) pairs.
temp_dir_with_files in libreoffice.rs puts the staged input file and the
output directory in the very same temp directory, so one list models both. -/
abbrev TempDirState : Type := List (String × List Nat)

/-- Writing a file into the directory; a same-named file is overwritten. -/
def writeFile (dir : TempDirState) (name : String) (contents : List Nat) : TempDirState :=
  (dir.filter (fun f => !(f.1 == name))) ++ [(name, contents)]

/-- Sequence of file writes applied in order. -/
def applyWrites (dir : TempDirState) (ws : List (String × List Nat)) : TempDirState :=
  ws.foldl (fun d w => writeFile d w.1 w.2) dir

/-- Outcome of the spawned libreoffice subprocess, as observed by
convert_libreoffice_async.  elapsedSecs is the wall-clock time from spawn to
child exit; ioOk models the Ok/Err of Command::output (after the child ran);
produced lists the files the child wrote into the output directory, in the
order the directory iteration later yields them. -/
structure SubprocessRun where
  elapsedSecs : Nat
  ioOk : Bool
  exitSuccess : Bool
  stderr : String
  stdout : String
  produced : List (String × List Nat)

/-- Environment of one convert_libreoffice_async call: which of its fallible
filesystem steps succeed, and the subprocess outcome. -/
structure ConvEnv where
  tempDirOk : Bool
  writeOk : Bool
  run : SubprocessRun
  scanOk : Bool
  readOk : Bool
  analyzeDirOk : Bool

/-- Observable side effects of one conversion request, recorded in order:
acquiring the global LibreOffice mutex, creating the temp directory, and
every filesystem or subprocess operation. -/
inductive Effect where
  | lockAcquired
  | tempDirCreated
  | fsWrite (name : String)
  | spawn
  | fsReadDir
  | fsRead (name : String)
deriving DecidableEq, Repr

/-- Hard subprocess deadline of libreoffice.rs (Duration::from_secs(60)). -/
def timeoutSecs : Nat := 60

/-- Directory contents once the input file is staged and the subprocess has
run: the staged document.<from> plus whatever files the child produced. -/
def runDir (input : List Nat) (fromFmt : String) (run : SubprocessRun) : TempDirState :=
  applyWrites [("document." ++ fromFmt, input)] run.produced

/-- Output-location block of convert_libreoffice_async (the zero-exit path of
libreoffice.rs): look for document.<to>; if absent, scan the directory and
take the first entry whose extension equals <to>; if none matches, defer to
analyze_missing_output_error over a fresh directory listing. -/
def locateOutput (env : ConvEnv) (dir : TempDirState) (fromFmt toFmt : String)
    (base : List Effect) : Except LibreOfficeError (List Nat) × List Effect :=
  let expected := "document." ++ toFmt
  match dir.find? (fun f => f.1 == expected) with
  | some fexp =>
    if env.readOk then (.ok fexp.2, base ++ [.fsRead expected])
    else (.error (.IoErr "failed to read output file"), base ++ [.fsRead expected])
  | none =>
    if !env.scanOk then
      (.error (.IoErr "failed to read output dir"), base ++ [.fsReadDir])
    else
      match dir.find? (fun f => pathExtension f.1 == some toFmt) with
      | some ffound =>
        if env.readOk then (.ok ffound.2, base ++ [.fsReadDir, .fsRead ffound.1])
        else (.error (.IoErr "failed to read output file"),
          base ++ [.fsReadDir, .fsRead ffound.1])
      | none =>
        (.error (analyze_missing_output_error
            (if env.analyzeDirOk then some (dir.map Prod.fst) else none) fromFmt toFmt),
          base ++ [.fsReadDir, .fsReadDir])

/-- Translation of convert_libreoffice_async in libreoffice.rs.  The result
pairs the returned value with the trace of effects.  The tokio::time::timeout
wrapper fires exactly when the child has not exited before the 60 s deadline;
on expiry the function returns Timeout.  On a zero exit it looks for
document.<to>, otherwise scans the directory for the first entry whose
extension equals <to>, otherwise defers to analyze_missing_output_error. -/
def convert_libreoffice_async (env : ConvEnv) (input : List Nat) (fromFmt toFmt : String) :
    Except LibreOfficeError (List Nat) × List Effect :=
  if !env.tempDirOk then
    (.error (.IoErr "failed to create temp dir"), [.lockAcquired])
  else if !env.writeOk then
    (.error (.IoErr "failed to write input file"), [.lockAcquired, .tempDirCreated])
  else
    let inputName := "document." ++ fromFmt
    let base : List Effect := [.lockAcquired, .tempDirCreated, .fsWrite inputName, .spawn]
    if timeoutSecs ≤ env.run.elapsedSecs then
      (.error .Timeout, base)
    else if !env.run.ioOk then
      (.error (.IoErr "failed to run libreoffice"), base)
    else if !env.run.exitSuccess then
      (.error (analyze_libreoffice_error env.run.stderr env.run.stdout fromFmt toFmt), base)
    else
      locateOutput env (runDir input fromFmt env.run) fromFmt toFmt base

/-- Translation of convert_libreoffice in libreoffice.rs: classify the input
bytes first and fail with UnsupportedConversion on the Unknown tag, before
any lock, temp-directory or filesystem activity; otherwise run the async
dispatcher. -/
def convert_libreoffice (env : ConvEnv) (input : List Nat) (fromFmt toFmt : String) :
    Except LibreOfficeError (List Nat) × List Effect :=
  if detect_file_type_from_bytes input = FileType.Unknown then
    (.error (.UnsupportedConversion fromFmt toFmt), [])
  else
    convert_libreoffice_async env input fromFmt toFmt

/-- Multipart form part as consumed by extract_multipart_data in
routes/convert.rs: a field name, whether reading its payload succeeds, and
the payload both as bytes (used for the file field) and as text (used for the
format fields).  The handler never reads the part's file name. -/
structure MpField where
  name : String
  readOk : Bool
  bytes : List Nat
  text : String

/-- Outcome of the route handler, reduced to its decision: either the
conversion proceeds with these arguments (handle_conversion is entered), or
an HTTP response with this status and plain-text body is returned at once. -/
inductive HandlerDecision where
  | converted (bytes : List Nat) (inputFmt outputFmt : String)
  | response (status : Nat) (body : String)
deriving DecidableEq, Repr

/-- Loop body of extract_multipart_data in routes/convert.rs, folded over the
fields the multipart stream yields; a field read error aborts with a 400
response, later fields of the same name overwrite earlier ones, unknown
field names are skipped. -/
def extractFields (fields : List MpField) (fileBytes : Option (List Nat))
    (inputFormat outputFormat : Option String) :
    Except (Nat × String) (Option (List Nat) × Option String × Option String) :=
  match fields with
  | [] => .ok (fileBytes, inputFormat, outputFormat)
  | f :: rest =>
    if f.name == "file" then
      if f.readOk then extractFields rest (some f.bytes) inputFormat outputFormat
      else .error (400, "Error reading uploaded file")
    else if f.name == "input_format" then
      if f.readOk then extractFields rest fileBytes (some f.text) outputFormat
      else .error (400, "Error reading input_format")
    else if f.name == "output_format" then
      if f.readOk then extractFields rest fileBytes inputFormat (some f.text)
      else .error (400, "Error reading output_format")
    else
      extractFields rest fileBytes inputFormat outputFormat

/-- Translation of extract_multipart_data in routes/convert.rs. -/
def extract_multipart_data (fields : List MpField) :
    Except (Nat × String) (Option (List Nat) × Option String × Option String) :=
  extractFields fields none none none

/-- Translation of the POST /convert handler in routes/convert.rs, up to its
decision: the conversion is entered only when all three of file, input_format
and output_format were present; otherwise a 400 response reporting the
missing fields is returned. -/
def convertHandler (fields : List MpField) : HandlerDecision :=
  match extract_multipart_data fields with
  | .error (s, m) => .response s m
  | .ok (some b, some i, some o) => .converted b i o
  | .ok _ =>
    .response 400 "Missing required fields: file, input_format, output_format"

/-- Environment of one Office::new call in libreofficekit/mod.rs: whether the
install path is absolute, whether canonicalization succeeds for a relative
one, whether OfficeRaw::init succeeds, and what raw.get_error() reports right
after initialization. -/
structure OfficeNewEnv where
  isAbsolute : Bool
  canonicalizeOk : Bool
  initOk : Bool
  postInitError : Option String

/-- Result alternatives of Office::new. -/
inductive OfficeNewOutcome where
  | ok
  | instanceLock
  | invalidPath
  | initFailed
  | officeErr (msg : String)
deriving DecidableEq, Repr

/-- Translation of Office::new in libreofficekit/mod.rs, as a transition on
the GLOBAL_OFFICE_LOCK flag of libreofficekit/sys.rs.  The input flag is the
flag value before the call; the output pairs the result with the flag value
after the call.  swap(true) admits the caller only when the flag was false.
On canonicalization failure the function returns InvalidPath without
touching the flag again; on init failure it stores false explicitly; when
raw.get_error() reports a message the freshly built OfficeRaw is dropped and
its Drop impl swaps the flag back to false; on success the flag stays true
while the instance lives. -/
def office_new (flag : Bool) (env : OfficeNewEnv) : OfficeNewOutcome × Bool :=
  if flag then
    (.instanceLock, true)
  else if !env.isAbsolute && !env.canonicalizeOk then
    (.invalidPath, true)
  else if !env.initOk then
    (.initFailed, false)
  else
    match env.postInitError with
    | some m => (.officeErr m, false)
    | none => (.ok, true)

/-- Translation of the Drop impl for OfficeRaw in libreofficekit/sys.rs:
dropping the instance swaps GLOBAL_OFFICE_LOCK back to false (the engine
destroy call itself is commented out in the source). -/
def officeRawDrop (_flag : Bool) : Bool := false

/-- Subprocess outcome in which everything succeeds instantly: zero exit,
no diagnostics, and the given produced files. -/
def okRunWith (produced : List (String × List Nat)) : SubprocessRun :=
  ⟨0, true, true, "", "", produced⟩

/-- Environment in which every fallible step succeeds and the subprocess
behaves as okRunWith. -/
def okEnvWith (produced : List (String × List Nat)) : ConvEnv :=
  ⟨true, true, okRunWith produced, true, true, true⟩

/-- Subprocess-produced files for the two-matching-files scenario of C3. -/
def scanProduced : List (String × List Nat) :=
  [("a.pdf", [1]), ("b.pdf", [2])]

/-- Subprocess-produced files for the single-matching-file scenario. -/
def scanOneProduced : List (String × List Nat) :=
  [("out.pdf", [9, 9])]

/-- Subprocess-produced files for the no-matching-extension scenario. -/
def noMatchProduced : List (String × List Nat) :=
  [("document.bin", [5])]

/-- Multipart body carrying a file part and an output_format part but no
input_format part. -/
def c7Fields : List MpField :=
  [⟨"file", true, asciiBytes "%PDF-1.4", ""⟩, ⟨"output_format", true, [], "pdf"⟩]

/-- Multipart body carrying only a file part. -/
def c7WitnessFields : List MpField :=
  [⟨"file", true, [37], ""⟩]

/-- Ten-byte input whose first 256 bytes are exactly 90 percent text-like:
nine ASCII letters followed by one NUL byte. -/
def exactNinetyInput : List Nat :=
  List.replicate 9 65 ++ [0]

/-- Writing a file always leaves the directory non-empty. -/
theorem writeFile_ne_nil (d : TempDirState) (n : String) (c : List Nat) :
    writeFile d n c ≠ [] := by
  simp [writeFile, List.append_eq_nil]

/-- Applying any sequence of writes to a non-empty directory leaves it
non-empty. -/
theorem applyWrites_ne_nil (ws : List (String × List Nat)) :
    ∀ d : TempDirState, d ≠ [] → applyWrites d ws ≠ [] := by
  induction ws with
  | nil => intro d hd; simpa [applyWrites] using hd
  | cons w ws ih =>
    intro d _
    simpa [applyWrites] using ih (writeFile d w.1 w.2) (writeFile_ne_nil d w.1 w.2)

/-- Post-run directory always holds at least the staged input file. -/
theorem runDir_ne_nil (input : List Nat) (fromFmt : String) (run : SubprocessRun) :
    runDir input fromFmt run ≠ [] :=
  applyWrites_ne_nil run.produced _ (by simp)

/-- Classifier of subprocess diagnostics never produces Timeout. -/
theorem analyze_libreoffice_error_ne_timeout (stderr stdout fromFmt toFmt : String) :
    analyze_libreoffice_error stderr stdout fromFmt toFmt ≠ LibreOfficeError.Timeout := by
  simp only [analyze_libreoffice_error]
  split <;> try simp
  split <;> try simp
  split <;> try simp
  split <;> try simp
  split <;> simp

/-- Missing-output analysis never produces Timeout. -/
theorem analyze_missing_output_error_ne_timeout (listing : Option (List String))
    (fromFmt toFmt : String) :
    analyze_missing_output_error listing fromFmt toFmt ≠ LibreOfficeError.Timeout := by
  unfold analyze_missing_output_error
  split <;> try simp
  split <;> simp

/-- Output location after a zero exit never produces Timeout. -/
theorem locateOutput_ne_timeout (env : ConvEnv) (dir : TempDirState) (fromFmt toFmt : String)
    (base : List Effect) :
    (locateOutput env dir fromFmt toFmt base).1 ≠ Except.error LibreOfficeError.Timeout := by
  unfold locateOutput
  rcases hexp : (List.find? (fun f : String × List Nat => f.1 == "document." ++ toFmt) dir)
    with _ | fexp
  all_goals simp only [hexp]
  all_goals repeat' split
  all_goals simp [analyze_missing_output_error_ne_timeout]

/-- C1: for every input byte string and every format pair, when the
magic-number classifier returns the Unknown tag, convert_libreoffice returns
UnsupportedConversion with that pair and its effect trace is empty, so the
engine mutex is never acquired, no temp directory is created and no
filesystem or engine operation is performed. -/
theorem c1_unknown_tag_short_circuits (env : ConvEnv) (input : List Nat)
    (fromFmt toFmt : String)
    (h : detect_file_type_from_bytes input = FileType.Unknown) :
    convert_libreoffice env input fromFmt toFmt
      = (.error (.UnsupportedConversion fromFmt toFmt), ([] : List Effect)) := by
  simp [convert_libreoffice, h]

/-- Witness for C1 at the binary-noise input of the repository's own tests. -/
theorem c1_unknown_tag_short_circuits_witness :
    detect_file_type_from_bytes [0x00, 0x01, 0x02, 0x03] = FileType.Unknown ∧
    convert_libreoffice (okEnvWith []) [0x00, 0x01, 0x02, 0x03] "bin" "pdf"
      = (.error (.UnsupportedConversion "bin" "pdf"), ([] : List Effect)) :=
  ⟨by decide,
    c1_unknown_tag_short_circuits (okEnvWith []) [0x00, 0x01, 0x02, 0x03] "bin" "pdf" (by decide)⟩

/-- C2: the error classifier applied to a non-zero exit maps the lowercased
concatenation stderr + " " + stdout by exactly the first-match rule table of
the spec (password/encrypted; format with not supported; corrupt, damaged,
invalid, parse error, bad file; empty, no content, zero bytes; filter with
not found; otherwise ConversionFailed carrying the full texts). -/
theorem c2_error_classifier_matches_spec (stderr stdout fromFmt toFmt : String) :
    analyze_libreoffice_error stderr stdout fromFmt toFmt
      = errorClassifierSpec stderr stdout fromFmt toFmt := rfl

/-- C4 counterexample: on an empty listing the analysis does return a
CorruptedInput error, but its message is not the spec's quoted string
"no output files generated". -/
theorem c4_message_counterexample :
    analyze_missing_output_error (some []) "docx" "pdf"
      ≠ LibreOfficeError.CorruptedInput "no output files generated" := by
  decide

/-- C4 amended: after a zero-exit run with no matching output, an empty
directory listing yields CorruptedInput with the message "No output files
were generated - input file may be corrupted or invalid", and a non-empty
listing yields UnsupportedConversion with the request's format pair. -/
theorem c4_missing_output_analysis (fromFmt toFmt name : String) (rest : List String) :
    analyze_missing_output_error (some []) fromFmt toFmt
      = LibreOfficeError.CorruptedInput
          "No output files were generated - input file may be corrupted or invalid"
    ∧ analyze_missing_output_error (some (name :: rest)) fromFmt toFmt
      = LibreOfficeError.UnsupportedConversion fromFmt toFmt := by
  exact ⟨rfl, rfl⟩

/-- C5: the dispatcher returns Timeout exactly when the staging steps
succeeded (so the child was actually spawned) and the child had not completed
within the 60-second wall-clock deadline measured from spawn; in particular a
child completing within the deadline never yields Timeout. -/
theorem c5_timeout_iff_deadline_exceeded (env : ConvEnv) (input : List Nat)
    (fromFmt toFmt : String) :
    (convert_libreoffice_async env input fromFmt toFmt).1 = .error .Timeout
      ↔ env.tempDirOk = true ∧ env.writeOk = true ∧ timeoutSecs ≤ env.run.elapsedSecs := by
  unfold convert_libreoffice_async
  repeat' split
  all_goals simp_all [Nat.not_le, analyze_libreoffice_error_ne_timeout,
    locateOutput_ne_timeout]

/-- C6: for every error value the HTTP response status is 408 for Timeout,
400 for CorruptedInput, UnsupportedConversion, PasswordProtected and
EmptyOrInvalidInput, and 500 for every other kind; the body is the plain-text
message built from the error's display text, and the From impl in error.rs
produces the same response as create_conversion_error_response. -/
theorem c6_status_mapping (e : LibreOfficeError) :
    (create_conversion_error_response e).1 = claimStatusTable e
    ∧ libreOfficeErrorResponse e = create_conversion_error_response e := by
  cases e <;>
    simp [create_conversion_error_response, libreOfficeErrorResponse, claimStatusTable]

/-- C3 counterexample: with a zero exit, document.pdf absent, and two scanned
files a.pdf and b.pdf carrying the pdf extension, the dispatcher still
succeeds and returns the contents of the first match, although exactly-one
does not hold; so a scanned file is used even when more than one file with
the target extension exists. -/
theorem c3_exactly_one_counterexample :
    (convert_libreoffice_async (okEnvWith scanProduced) [97] "txt" "pdf").1
      = Except.ok [1]
    ∧ (runDir [97] "txt" (okRunWith scanProduced)).find?
        (fun f => f.1 == "document.pdf") = none
    ∧ ((runDir [97] "txt" (okRunWith scanProduced)).filter
        (fun f => pathExtension f.1 == some "pdf")).length = 2 := by
  exact ⟨rfl, rfl, rfl⟩

/-- C3 amended: when the expected document.<to> is absent after a zero exit,
the dispatcher scans the directory and uses the first file (in directory
iteration order) whose extension equals <to>, as soon as at least one such
file exists; the returned bytes are the full contents of that file. -/
theorem c3_scan_uses_first_match (env : ConvEnv) (input : List Nat) (fromFmt toFmt : String)
    (ffound : String × List Nat)
    (h1 : env.tempDirOk = true) (h2 : env.writeOk = true)
    (h3 : env.run.elapsedSecs < timeoutSecs) (h4 : env.run.ioOk = true)
    (h5 : env.run.exitSuccess = true)
    (h6 : (runDir input fromFmt env.run).find?
        (fun f => f.1 == "document." ++ toFmt) = none)
    (h7 : env.scanOk = true) (h8 : env.readOk = true)
    (h9 : (runDir input fromFmt env.run).find?
        (fun f => pathExtension f.1 == some toFmt) = some ffound) :
    (convert_libreoffice_async env input fromFmt toFmt).1 = Except.ok ffound.2 := by
  unfold convert_libreoffice_async locateOutput
  simp [h1, h2, h4, h5, h6, h7, h8, h9, Nat.not_le.mpr h3]

/-- Witness for C3's amended theorem: a single scanned out.pdf is used. -/
theorem c3_scan_uses_first_match_witness :
    (convert_libreoffice_async (okEnvWith scanOneProduced) [97] "txt" "pdf").1
      = Except.ok [9, 9] :=
  c3_scan_uses_first_match (okEnvWith scanOneProduced) [97] "txt" "pdf" ("out.pdf", [9, 9])
    rfl rfl (by decide) rfl rfl rfl rfl rfl rfl

/-- Extraction leaves input_format at none when no multipart field bears the
name input_format and every field reads successfully. -/
theorem extractFields_no_input_format (fields : List MpField) :
    ∀ (fb : Option (List Nat)) (o : Option String),
    (∀ f ∈ fields, f.readOk = true) →
    (∀ f ∈ fields, f.name ≠ "input_format") →
    ∃ fb' o', extractFields fields fb none o = .ok (fb', none, o') := by
  induction fields with
  | nil => intro fb o _ _; exact ⟨fb, o, rfl⟩
  | cons f rest ih =>
    intro fb o hok hni
    have hr : f.readOk = true := hok f (List.mem_cons_self f rest)
    have hn : f.name ≠ "input_format" := hni f (List.mem_cons_self f rest)
    have hok' : ∀ g ∈ rest, g.readOk = true := fun g hg => hok g (List.mem_cons_of_mem f hg)
    have hni' : ∀ g ∈ rest, g.name ≠ "input_format" := fun g hg => hni g (List.mem_cons_of_mem f hg)
    by_cases h1 : f.name = "file"
    · simpa [extractFields, h1, hr] using ih (some f.bytes) o hok' hni'
    · by_cases h2 : f.name = "output_format"
      · simpa [extractFields, h1, h2, hn, hr] using ih fb (some f.text) hok' hni'
      · simpa [extractFields, h1, h2, hn, hr] using ih fb o hok' hni'

/-- C7 counterexample: a multipart body with a well-read file part and
output_format part but no input_format part is rejected with the 400
missing-fields response; no input format is derived from the part's file
name (the handler never reads it) and the conversion does not proceed. -/
theorem c7_missing_input_format_counterexample :
    convertHandler c7Fields
      = HandlerDecision.response 400
          "Missing required fields: file, input_format, output_format" := by
  exact rfl

/-- C7 amended: every multipart body whose fields all read successfully and
none of which is named input_format is answered with the 400 missing-fields
response; the conversion never proceeds, whatever the file part's name. -/
theorem c7_missing_input_format_rejected (fields : List MpField)
    (hok : ∀ f ∈ fields, f.readOk = true)
    (hni : ∀ f ∈ fields, f.name ≠ "input_format") :
    convertHandler fields
      = HandlerDecision.response 400
          "Missing required fields: file, input_format, output_format" := by
  obtain ⟨fb', o', h⟩ := extractFields_no_input_format fields none none hok hni
  cases fb' <;> cases o' <;> simp [convertHandler, extract_multipart_data, h]

/-- Witness for C7's amended theorem at a one-field body. -/
theorem c7_missing_input_format_rejected_witness :
    convertHandler c7WitnessFields
      = HandlerDecision.response 400
          "Missing required fields: file, input_format, output_format" :=
  c7_missing_input_format_rejected c7WitnessFields (by decide) (by decide)

/-- Restricting to the 1024-byte prefix does not change the 256-byte
printable count. -/
theorem printableCount_take_1024 (l : List Nat) :
    printableCount (l.take 1024) = printableCount l := by
  simp [printableCount, List.take_take]

/-- Restricting to the 1024-byte prefix does not change the inspected-byte
count. -/
theorem checkedCount_take_1024 (l : List Nat) :
    checkedCount (l.take 1024) = checkedCount l := by
  simp [checkedCount, List.length_take]

/-- C8 counterexample: a ten-byte input with nine ASCII letters and one NUL
byte reaches the text heuristic (it is non-empty and matches no magic
number), has exactly 90 percent text-like bytes, which satisfies the claim's
at-least-90-percent condition, yet the classifier returns Unknown rather
than PlainText: the code requires strictly more than 90 percent. -/
theorem c8_exact_ninety_percent_counterexample :
    detect_openoffice_file_type exactNinetyInput = FileType.Unknown
    ∧ 9 * checkedCount exactNinetyInput ≤ 10 * printableCount exactNinetyInput
    ∧ exactNinetyInput ≠ []
    ∧ (asciiBytes "%PDF-").isPrefixOf exactNinetyInput = false
    ∧ (asciiBytes "\x7b\\rtf1").isPrefixOf exactNinetyInput = false
    ∧ [0x50, 0x4b, 0x03, 0x04].isPrefixOf exactNinetyInput = false
    ∧ [0x50, 0x4b, 0x05, 0x06].isPrefixOf exactNinetyInput = false
    ∧ [0xd0, 0xcf, 0x11, 0xe0, 0xa1, 0xb1, 0x1a, 0xe1].isPrefixOf exactNinetyInput = false := by
  decide

/-- C8 amended: for a non-empty input matching none of the earlier magic
rules, the classifier returns PlainText exactly when strictly more than 90
percent of the first min(256, length) bytes are text-like (ASCII-graphic,
ASCII-whitespace or high-bit); otherwise, and on the empty input, it returns
Unknown. -/
theorem c8_plaintext_strict_threshold (content : List Nat)
    (hne : content ≠ [])
    (hpdf : (asciiBytes "%PDF-").isPrefixOf content = false)
    (hrtf : (asciiBytes "\x7b\\rtf1").isPrefixOf content = false)
    (hpk34 : [0x50, 0x4b, 0x03, 0x04].isPrefixOf content = false)
    (hpk56 : [0x50, 0x4b, 0x05, 0x06].isPrefixOf content = false)
    (hole : [0xd0, 0xcf, 0x11, 0xe0, 0xa1, 0xb1, 0x1a, 0xe1].isPrefixOf content = false) :
    (detect_openoffice_file_type content = FileType.PlainText
      ↔ 9 * checkedCount content < 10 * printableCount content)
    ∧ (detect_openoffice_file_type content = FileType.PlainText
        ∨ detect_openoffice_file_type content = FileType.Unknown)
    ∧ detect_openoffice_file_type [] = FileType.Unknown := by
  have hlen : (content.length == 0) = false := by
    simp [List.length_eq_zero, hne]
  have hck : checkedCount content ≠ 0 := by
    have hl : content.length ≠ 0 := by simpa [List.length_eq_zero] using hne
    simp only [checkedCount]
    omega
  have htext : is_likely_text (content.take 1024)
      = decide (9 * checkedCount content < 10 * printableCount content) := by
    simp [is_likely_text, checkedCount_take_1024, printableCount_take_1024, hck]
  simp only [detect_openoffice_file_type, hlen, hpdf, hrtf, hpk34, hpk56, hole,
    Bool.false_eq_true, if_false, Bool.or_self, htext]
  constructor
  · constructor
    · intro h
      by_cases hc : 9 * checkedCount content < 10 * printableCount content
      · exact hc
      · simp [hc] at h
    · intro hc
      simp [hc]
  · constructor
    · by_cases hc : 9 * checkedCount content < 10 * printableCount content
      · left; simp [hc]
      · right; simp [hc]
    · rfl

/-- Witness for C8's amended theorem at an all-printable input. -/
theorem c8_plaintext_strict_threshold_witness :
    (detect_openoffice_file_type (asciiBytes "hello") = FileType.PlainText
      ↔ 9 * checkedCount (asciiBytes "hello") < 10 * printableCount (asciiBytes "hello"))
    ∧ (detect_openoffice_file_type (asciiBytes "hello") = FileType.PlainText
        ∨ detect_openoffice_file_type (asciiBytes "hello") = FileType.Unknown)
    ∧ detect_openoffice_file_type [] = FileType.Unknown :=
  c8_plaintext_strict_threshold (asciiBytes "hello") (by decide) (by decide) (by decide)
    (by decide) (by decide) (by decide)

/-- C9: evaluation of Office::new at the failing input.  A first call with a
relative install path whose canonicalization fails returns InvalidPath but
leaves the process-wide in-use flag at true (first conjunct), so any
subsequent call is rejected with InstanceLock (second conjunct), although no
instance is alive.  The claim's reversion does hold on the init-failure path
(third conjunct), on the post-init error path (fourth) and on drop (fifth):
the canonicalization path is the one slip. -/
theorem c9_invalid_path_leaks_flag :
    office_new false ⟨false, false, true, none⟩ = (OfficeNewOutcome.invalidPath, true)
    ∧ office_new true ⟨true, true, true, none⟩ = (OfficeNewOutcome.instanceLock, true)
    ∧ office_new false ⟨true, true, false, none⟩ = (OfficeNewOutcome.initFailed, false)
    ∧ office_new false ⟨true, true, true, some "boot error"⟩
        = (OfficeNewOutcome.officeErr "boot error", false)
    ∧ officeRawDrop true = false := by
  decide

/-- C10: when a zero-exit run leaves no file with the target extension, the
output directory still holds the staged input file document.<from> (the
output directory is the staging directory), so the missing-output analysis
sees a non-empty listing and returns UnsupportedConversion whenever the
directory can be read, and OutputNotFound only when it cannot; the
empty-listing CorruptedInput branch is unreachable. -/
theorem c10_missing_output_defaults_to_unsupported (env : ConvEnv) (input : List Nat)
    (fromFmt toFmt : String)
    (h1 : env.tempDirOk = true) (h2 : env.writeOk = true)
    (h3 : env.run.elapsedSecs < timeoutSecs) (h4 : env.run.ioOk = true)
    (h5 : env.run.exitSuccess = true)
    (h6 : (runDir input fromFmt env.run).find?
        (fun f => f.1 == "document." ++ toFmt) = none)
    (h7 : env.scanOk = true)
    (h8 : (runDir input fromFmt env.run).find?
        (fun f => pathExtension f.1 == some toFmt) = none) :
    (convert_libreoffice_async env input fromFmt toFmt).1
      = Except.error (if env.analyzeDirOk then
          LibreOfficeError.UnsupportedConversion fromFmt toFmt
        else LibreOfficeError.OutputNotFound) := by
  have hne : (runDir input fromFmt env.run).map Prod.fst ≠ [] := by
    simpa using runDir_ne_nil input fromFmt env.run
  unfold convert_libreoffice_async locateOutput
  cases had : env.analyzeDirOk <;>
    simp [h1, h2, h4, h5, h6, h7, h8, had, Nat.not_le.mpr h3,
      analyze_missing_output_error, hne]

/-- Witness for C10 with one produced file of the wrong extension. -/
theorem c10_missing_output_defaults_to_unsupported_witness :
    (convert_libreoffice_async (okEnvWith noMatchProduced) [97] "txt" "pdf").1
      = Except.error (LibreOfficeError.UnsupportedConversion "txt" "pdf") := by
  have h := c10_missing_output_defaults_to_unsupported (okEnvWith noMatchProduced) [97]
    "txt" "pdf" rfl rfl (by decide) rfl rfl rfl rfl rfl
  simpa [okEnvWith, okRunWith] using h
